import Mathlib

/-!
Shallow embedding of the OmniVision image-matching pipeline
(src/app/main.py and src/app/ai_engine.py).

Remote collaborators (the Gemini vision service, the Supabase store, the
Facebook Graph API and plain HTTP downloads) are modelled as oracle values:
an `Except Unit α` is a remote call that either raised an exception
(`.error ()`) or returned a value.  Side effects performed by the pipeline
(outbound messages, the credit-decrement write, the two paid AI calls) are
recorded in an explicit `Effect` list, in program order.  Response texts are
modelled as `List Char`; embedding vectors as `List Rat`.
-/

namespace Omni

/-! ### ai_engine.process_image -/

/-- Result dictionary of `process_image` (src/app/ai_engine.py).  On the
success path the dict also carries the description; on the failure path it
does not, hence `Option`. -/
structure Descriptor where
  siglip_embedding : List Rat
  dino_embedding : List Rat
  description : Option (List Char)
  deriving Repr, DecidableEq

/-- `process_image(image_bytes)` from src/app/ai_engine.py.  The two remote
calls (Gemini description of the image, then embedding of the description)
are the oracles `describe` and `embed`; any exception in the `try` block is
caught and converted to the all-zero 768-dimensional result. -/
def process_image (describe : Except Unit (List Char))
    (embed : List Char → Except Unit (List Rat)) : Descriptor :=
  match describe with
  | .error _ =>
      { siglip_embedding := List.replicate 768 0
        dino_embedding := List.replicate 768 0
        description := none }
  | .ok description =>
      match embed description with
      | .error _ =>
          { siglip_embedding := List.replicate 768 0
            dino_embedding := List.replicate 768 0
            description := none }
      | .ok embedding =>
          { siglip_embedding := embedding
            dino_embedding := embedding
            description := some description }

/-! ### ai_engine.verify_visual_match -/

/-- Value of a run of decimal digit characters, as Python `int()` computes it
on the matched group. -/
def natOfDigits (ds : List Char) : Nat :=
  ds.foldl (fun a c => a * 10 + (c.toNat - 48)) 0

/-- The digit-class regex search of the source followed by `int` on the
matched group: find the first digit character, take the maximal contiguous
digit run starting there, and read it as a number; `none` when the text has
no digit.  (ASCII digits are modelled.) -/
def scanScore : List Char → Option Nat
  | [] => none
  | c :: cs =>
      if c.isDigit then some (natOfDigits (c :: cs.takeWhile Char.isDigit))
      else scanScore cs

/-- Python `str.strip()`: drop whitespace from both ends. -/
def pyStrip (l : List Char) : List Char :=
  ((l.dropWhile Char.isWhitespace).reverse.dropWhile Char.isWhitespace).reverse

/-- `verify_visual_match(image1_bytes, image2_bytes)` from
src/app/ai_engine.py.  The single remote call (Gemini comparison of the two
images) is the oracle `response`: `.error ()` models any exception in the
`try` block (caught, returns 0), `.ok t` models the free-text reply `t`.
The code strips the text, extracts the first integer token, and returns it;
0 when no digit occurs. -/
def verify_visual_match (response : Except Unit (List Char)) : Nat :=
  match response with
  | .error _ => 0
  | .ok t =>
      match scanScore (pyStrip t) with
      | some score => score
      | none => 0

/-! ### Data rows of the Supabase store, as the pipeline reads them -/

/-- A row of the `shops` table as `handle_image_search` and
`process_incoming_message` read it (a Python dict: fields read through
`.get` are `Option`s).  `send_image` is read with `.get("send_image",
False)`, so a missing key is `False`. -/
structure ShopConfig where
  owner_id : Option String
  encrypted_access_token : String
  msg_found : Option String
  msg_not_found : Option String
  send_image : Option Bool
  deriving Repr, DecidableEq

/-- A row returned by the `match_products` RPC, as the pipeline reads it:
`image_url` is accessed by subscript (required), `name` and `price` through
`.get` (optional).  `price` is modelled by its rendered text. -/
structure Candidate where
  name : Option String
  price : Option String
  image_url : String
  deriving Repr, DecidableEq

/-! ### Side effects -/

/-- Side effects of one pipeline run, in program order: outbound Facebook
sends, the issued credit-decrement write (with the value written), and the
two paid AI calls (descriptor extraction; visual verification). -/
inductive Effect where
  | sendText (recipient text : String)
  | sendImage (recipient url : String)
  | deductCredit (owner : String) (newBalance : Int)
  | extract
  | verify
  deriving Repr, DecidableEq

/-- Delivery outcome of one Graph API post: delivered (2xx); an HTTP error
status (`raise_for_status` raises `HTTPStatusError`, carrying the response
body); or a transport-level exception raised by the post itself
(connection failure, timeout), before any response exists. -/
inductive Delivery where
  | ok
  | statusErr (body : String)
  | transportErr
  deriving Repr, DecidableEq

/-- Whether the send helper raises to its caller: the helpers catch only
`HTTPStatusError`, so a transport-level exception propagates. -/
def Delivery.raises : Delivery → Bool
  | .transportErr => true
  | _ => false

/-- `send_facebook_message` (src/app/main.py, lines 38-50): posts the text.
Only an HTTP error status is caught (and logged with the response body); a
transport-level exception from the post propagates to the caller.  Result:
(the attempted outbound effect, log line if any, whether the call raises). -/
def send_facebook_message (recipient text : String) (delivery : Delivery) :
    List Effect × Option String × Bool :=
  ([Effect.sendText recipient text],
    (match delivery with
     | .ok => none
     | .statusErr body => some ("Failed to send message: " ++ body)
     | .transportErr => none),
    delivery.raises)

/-- `send_facebook_image` (src/app/main.py, lines 52-72): same catch
behaviour as `send_facebook_message`, for the image attachment post. -/
def send_facebook_image (recipient url : String) (delivery : Delivery) :
    List Effect × Option String × Bool :=
  ([Effect.sendImage recipient url],
    (match delivery with
     | .ok => none
     | .statusErr body => some ("Failed to send image: " ++ body)
     | .transportErr => none),
    delivery.raises)

/-! ### Template formatting (Python str.format, src/app/main.py lines 224-232) -/

/-- Parser state of the `str.format` scan: literal text, just after an
opening brace, just after a closing brace, or inside a replacement-field
name (`acc` holds the name characters read so far, reversed). -/
inductive FmtState where
  | lit
  | openB
  | closeB
  | key (acc : List Char)
  deriving Repr, DecidableEq

/-- One pass of Python `str.format` over the template characters.  Doubled
braces are escapes; a replacement field is looked up in `fields` (an
unknown or empty name raises, modelled `.error ()`); a stray or
unterminated brace raises. -/
def fmtGo (fields : List Char → Option (List Char)) :
    List Char → FmtState → Except Unit (List Char)
  | [], .lit => .ok []
  | [], .openB => .error ()
  | [], .closeB => .error ()
  | [], .key _ => .error ()
  | c :: rest, .lit =>
      if c = '{' then fmtGo fields rest .openB
      else if c = '}' then fmtGo fields rest .closeB
      else
        match fmtGo fields rest .lit with
        | .ok s => .ok (c :: s)
        | .error e => .error e
  | c :: rest, .openB =>
      if c = '{' then
        match fmtGo fields rest .lit with
        | .ok s => .ok ('{' :: s)
        | .error e => .error e
      else if c = '}' then
        match fields [] with
        | none => .error ()
        | some v =>
            match fmtGo fields rest .lit with
            | .ok s => .ok (v ++ s)
            | .error e => .error e
      else fmtGo fields rest (.key [c])
  | c :: rest, .closeB =>
      if c = '}' then
        match fmtGo fields rest .lit with
        | .ok s => .ok ('}' :: s)
        | .error e => .error e
      else .error ()
  | c :: rest, .key acc =>
      if c = '}' then
        match fields acc.reverse with
        | none => .error ()
        | some v =>
            match fmtGo fields rest .lit with
            | .ok s => .ok (v ++ s)
            | .error e => .error e
      else if c = '{' then .error ()
      else fmtGo fields rest (.key (c :: acc))

/-- Python `template.format(**fields)` on a template string. -/
def pyFormat (fields : List Char → Option (List Char)) (tpl : List Char) :
    Except Unit (List Char) :=
  fmtGo fields tpl .lit

/-- The keyword arguments passed to `.format` in `handle_image_search`:
`name=top_match.get("name", "Unknown")`, `price=top_match.get("price",
"N/A")`, `confidence=confidence_pct`. -/
def fieldsFor (top : Candidate) (confidence : Nat) :
    List Char → Option (List Char) :=
  fun k =>
    if k = "name".data then some (top.name.getD "Unknown").data
    else if k = "price".data then some (top.price.getD "N/A").data
    else if k = "confidence".data then some (toString confidence).data
    else none

/-- Python rendering of `top_match.get("name")` inside the fallback
f-string: the value, or `None` when the key is absent. -/
def pyNameStr (name : Option String) : String :=
  match name with
  | some s => s
  | none => "None"

/-- The `reply_text` computation of `handle_image_search` (src/app/main.py
lines 224-232): format the template with name, price and confidence; on any
formatting exception fall back to the minimal found-message. -/
def formatReply (tpl : String) (top : Candidate) (confidence : Nat) : String :=
  match pyFormat (fieldsFor top confidence) tpl.data with
  | .ok s => String.mk s
  | .error _ => "Found " ++ pyNameStr top.name ++ "."

/-! ### handle_image_search (src/app/main.py lines 147-247) -/

/-- Default of `shop_config.get("msg_found", ...)` (line 218). -/
def defaultFoundTemplate : String := "Found {name} for {price}. Confidence: {confidence}%"

/-- Default of `shop_config.get("msg_not_found", ...)` on the low-score
reject path (line 209). -/
def rejectDefaultMsg : String := "Sorry, we could not find a match for that item."

/-- Default of `shop_config.get("msg_not_found", ...)` on the empty-retrieval
path (line 240). -/
def noMatchDefaultMsg : String := "No match found."

/-- The fixed soft-match caveat sentence (line 215). -/
def softMatchCaveatMsg : String :=
  "We couldn\x27t find an exact match, but this is the closest we found:"

/-- The message sent when the source image download returns a non-200
status (line 154). -/
def downloadFailMsg : String := "Failed to download image."

/-- The generic reply sent by the outermost exception handler of
`handle_image_search` (line 247). -/
def genericErrorMsg : String := "An error occurred while processing your image."

/-- Oracle outcomes of the remote calls made by one `handle_image_search`
run.  `mainDownload`: the GET of the source image (`.error ()` = httpx
raised; `.ok none` = non-200 status; `.ok (some ())` = 200 with bytes).
`rpc`: the `match_products` call (`.error ()` = raised; otherwise the
candidate rows, ranked).  `candDownload`: the GET of the top candidate
image (`.error ()` = raised, caught locally; `.ok false` = non-200;
`.ok true` = 200).  `compare`: the Gemini comparison response consumed by
`verify_visual_match`. -/
structure SearchEnv where
  mainDownload : Except Unit (Option Unit)
  rpc : Except Unit (List Candidate)
  candDownload : Except Unit Bool
  compare : Except Unit (List Char)

/-- The `verification_score` variable after the verification block
(src/app/main.py lines 191-204): initialised to 0, overwritten by
`verify_visual_match` only when the candidate download returned 200; a
download exception is caught and leaves it 0. -/
def verificationScoreOf (env : SearchEnv) : Nat :=
  match env.candDownload with
  | .ok true => verify_visual_match env.compare
  | _ => 0

/-- The verification AI call happens exactly when the candidate download
returned 200. -/
def verifyEffectsOf (env : SearchEnv) : List Effect :=
  match env.candDownload with
  | .ok true => [Effect.verify]
  | _ => []

/-- `handle_image_search(user_id, image_url, page_id, shop_config, token)`
(src/app/main.py lines 147-247), as the list of effects it performs.
Branches, in source order: main download raised → caught at the outermost
`except`, generic error reply; non-200 → download-failed reply;
otherwise `process_image` runs (effect `.extract`), then the
`match_products` RPC: raised → generic error reply; empty (or null) data →
not-found reply; else the top candidate is verified
(`verifyEffectsOf`/`verificationScoreOf`) and the tiered decision policy
replies: score < 65 rejects with `msg_not_found`; 65 ≤ score < 85 sends the
caveat then the formatted found-message; score ≥ 85 sends the formatted
found-message alone; in both match tiers the candidate image is also sent
when `send_image` is true.  The Graph API posts are modelled here as
completing without a transport-level exception; `handle_image_search_sends`
below refines this function with explicit delivery outcomes and agrees with
it whenever no post raises (`handle_image_search_sends_agrees`). -/
def handle_image_search (user_id image_url page_id : String)
    (shop_config : ShopConfig) (token : String) (env : SearchEnv) :
    List Effect :=
  match env.mainDownload with
  | .error _ => [Effect.sendText user_id genericErrorMsg]
  | .ok none => [Effect.sendText user_id downloadFailMsg]
  | .ok (some _) =>
      Effect.extract ::
        match env.rpc with
        | .error _ => [Effect.sendText user_id genericErrorMsg]
        | .ok [] =>
            [Effect.sendText user_id (shop_config.msg_not_found.getD noMatchDefaultMsg)]
        | .ok (top_match :: _) =>
            verifyEffectsOf env ++
              (let v := verificationScoreOf env
               if v < 65 then
                 [Effect.sendText user_id (shop_config.msg_not_found.getD rejectDefaultMsg)]
               else
                 (if v < 85 then [Effect.sendText user_id softMatchCaveatMsg] else []) ++
                   [Effect.sendText user_id
                     (formatReply (shop_config.msg_found.getD defaultFoundTemplate) top_match v)] ++
                   (if shop_config.send_image.getD false then
                     [Effect.sendImage user_id top_match.image_url]
                   else []))

/-- Delivery outcome of each Graph API post one `handle_image_search` run
can make, in source order: the download-failed reply (line 154), the
low-score reject reply (line 210), the soft-match caveat (line 215), the
found-message (line 234), the candidate image (line 238), the
empty-retrieval not-found reply (line 241), and the boundary generic error
reply (line 247). -/
structure SendEnv where
  dlFailD : Delivery
  rejectD : Delivery
  caveatD : Delivery
  foundD : Delivery
  imageD : Delivery
  notFoundD : Delivery
  genericD : Delivery
  deriving Repr, DecidableEq

/-- The tiered reply dispatch on the top candidate (src/app/main.py lines
206-238) with delivery outcomes: result is (effects performed, whether an
uncaught exception left the block).  A transport-level exception from a
post aborts the remaining sends of the block. -/
def matchReplySends (user_id : String) (shop_config : ShopConfig)
    (top_match : Candidate) (v : Nat) (sd : SendEnv) : List Effect × Bool :=
  if v < 65 then
    let s := send_facebook_message user_id
      (shop_config.msg_not_found.getD rejectDefaultMsg) sd.rejectD
    (s.1, s.2.2)
  else
    let cav := send_facebook_message user_id softMatchCaveatMsg sd.caveatD
    let cavEffs := if v < 85 then cav.1 else []
    let cavRaised := if v < 85 then cav.2.2 else false
    if cavRaised then (cavEffs, true)
    else
      let f := send_facebook_message user_id
        (formatReply (shop_config.msg_found.getD defaultFoundTemplate) top_match v)
        sd.foundD
      if f.2.2 then (cavEffs ++ f.1, true)
      else if shop_config.send_image.getD false then
        let im := send_facebook_image user_id top_match.image_url sd.imageD
        (cavEffs ++ f.1 ++ im.1, im.2.2)
      else (cavEffs ++ f.1, false)

/-- Refinement of `handle_image_search` with the delivery outcome of every
Graph API post modelled.  The send helpers catch only an HTTP error status;
a transport-level exception from a post propagates to the outermost
`except` of `handle_image_search` (src/app/main.py lines 243-247), which
then attempts the generic error reply — after whatever sends already
happened.  If that last reply itself raises, the exception leaves the
function (the attempt is still recorded). -/
def handle_image_search_sends (user_id image_url page_id : String)
    (shop_config : ShopConfig) (token : String) (env : SearchEnv)
    (sd : SendEnv) : List Effect :=
  let body : List Effect × Bool :=
    match env.mainDownload with
    | .error _ => ([], true)
    | .ok none =>
        let s := send_facebook_message user_id downloadFailMsg sd.dlFailD
        (s.1, s.2.2)
    | .ok (some _) =>
        let tail : List Effect × Bool :=
          match env.rpc with
          | .error _ => ([], true)
          | .ok [] =>
              let s := send_facebook_message user_id
                (shop_config.msg_not_found.getD noMatchDefaultMsg) sd.notFoundD
              (s.1, s.2.2)
          | .ok (top_match :: _) =>
              let m := matchReplySends user_id shop_config top_match
                (verificationScoreOf env) sd
              (verifyEffectsOf env ++ m.1, m.2)
        (Effect.extract :: tail.1, tail.2)
  if body.2 then
    body.1 ++ (send_facebook_message user_id genericErrorMsg sd.genericD).1
  else body.1

/-- An outbound text reply to the end user. -/
def isUserText : Effect → Bool
  | .sendText _ _ => true
  | _ => false

/-! ### process_incoming_message (src/app/main.py lines 85-145) -/

/-- One entry of the `attachments` list of a message. -/
structure Attachment where
  type : String
  payload_url : String
  deriving Repr, DecidableEq

/-- A messaging event as `process_incoming_message` reads it: sender and
recipient ids through chained `.get` (so possibly absent), and the
(possibly absent) `attachments` list of the message. -/
structure Event where
  sender_id : Option String
  recipient_id : Option String
  attachments : Option (List Attachment)

/-- Python truthiness of an optional string (`if owner_id:` etc.): absent
or empty is falsy. -/
def truthyS : Option String → Bool
  | none => false
  | some s => !(s == "")

/-- The `for attachment in message["attachments"]` loop: the first
attachment of type `image` is processed and the function returns;
attachments after it are dropped, and a list with no image attachment
falls through to the end of the function. -/
def firstImage : List Attachment → Option Attachment
  | [] => none
  | a :: rest => if a.type = "image" then some a else firstImage rest

/-- `process_incoming_message(event)` (src/app/main.py lines 85-145), as
the list of effects it performs.  `getShop` models `get_shop_config`
(exceptions already converted to `none` inside it), `getUser` the `users`
table read of the credit gate (`.error ()` = raised, caught and halts;
`.ok none` = owner row absent; `.ok (some c)` = balance `c`), `decrypt`
the `decrypt_token` call.  In source order: falsy sender or recipient id
halts; unknown shop halts; with a truthy `owner_id` the credit gate halts
on a raised read, an absent owner row, or balance ≤ 0; token decryption
failure halts; then the first image attachment (if any) is processed:
with a truthy `owner_id` the decrement write `credits - 1` is issued, and
`handle_image_search` runs. -/
def process_incoming_message (ev : Event)
    (getShop : String → Option ShopConfig)
    (getUser : String → Except Unit (Option Int))
    (decrypt : String → Except Unit String)
    (env : SearchEnv) : List Effect :=
  if truthyS ev.sender_id && truthyS ev.recipient_id then
    match getShop (ev.recipient_id.getD "") with
    | none => []
    | some shop_config =>
        let gate : Option Int :=
          if truthyS shop_config.owner_id then
            match getUser (shop_config.owner_id.getD "") with
            | .error _ => none
            | .ok none => none
            | .ok (some c) => if c ≤ 0 then none else some c
          else some 0
        match gate with
        | none => []
        | some credits =>
            match decrypt shop_config.encrypted_access_token with
            | .error _ => []
            | .ok token =>
                match ev.attachments with
                | none => []
                | some atts =>
                    match firstImage atts with
                    | none => []
                    | some att =>
                        (if truthyS shop_config.owner_id then
                          [Effect.deductCredit (shop_config.owner_id.getD "")
                            (credits - 1)]
                        else []) ++
                          handle_image_search (ev.sender_id.getD "")
                            att.payload_url (ev.recipient_id.getD "")
                            shop_config token env
  else []

/-! ### Lemmas about the first-integer-token scan -/

theorem isDigit_false_of_isWhitespace {c : Char} (h : c.isWhitespace = true) :
    c.isDigit = false := by
  simp [Char.isWhitespace] at h
  rcases h with ((h | h) | h) | h <;> subst h <;> decide

theorem scanScore_append_left {pre : List Char} (l : List Char)
    (h : ∀ c ∈ pre, c.isDigit = false) :
    scanScore (pre ++ l) = scanScore l := by
  induction pre with
  | nil => rfl
  | cons c cs ih =>
      have hc : c.isDigit = false := h c (List.mem_cons_self c cs)
      simp [scanScore, hc]
      exact ih fun x hx => h x (List.mem_cons_of_mem c hx)

theorem scanScore_eq_none {l : List Char} (h : ∀ c ∈ l, c.isDigit = false) :
    scanScore l = none := by
  induction l with
  | nil => rfl
  | cons c cs ih =>
      have hc : c.isDigit = false := h c (List.mem_cons_self c cs)
      simp [scanScore, hc]
      exact ih fun x hx => h x (List.mem_cons_of_mem c hx)

theorem takeWhile_digit_append {ds : List Char} (post : List Char)
    (hds : ∀ c ∈ ds, c.isDigit = true)
    (hpost : ∀ c, post.head? = some c → c.isDigit = false) :
    (ds ++ post).takeWhile Char.isDigit = ds := by
  induction ds with
  | nil =>
      cases post with
      | nil => rfl
      | cons p ps =>
          have hp : p.isDigit = false := hpost p rfl
          simp [List.takeWhile, hp]
  | cons c cs ih =>
      have hc : c.isDigit = true := hds c (List.mem_cons_self c cs)
      simp [List.takeWhile, hc]
      exact ih fun x hx => hds x (List.mem_cons_of_mem c hx)

theorem takeWhile_append_nodigit {a : List Char} (b : List Char)
    (hb : ∀ c ∈ b, c.isDigit = false) :
    (a ++ b).takeWhile Char.isDigit = a.takeWhile Char.isDigit := by
  induction a with
  | nil =>
      cases b with
      | nil => rfl
      | cons p ps =>
          have hp : p.isDigit = false := hb p (List.mem_cons_self p ps)
          simp [List.takeWhile, hp]
  | cons c cs ih =>
      cases hc : c.isDigit <;> simp [List.takeWhile, hc, ih]

theorem scanScore_append_right {b : List Char} (a : List Char)
    (hb : ∀ c ∈ b, c.isDigit = false) :
    scanScore (a ++ b) = scanScore a := by
  induction a with
  | nil => simpa [scanScore] using scanScore_eq_none hb
  | cons c cs ih =>
      cases hc : c.isDigit with
      | true => simp [scanScore, hc, takeWhile_append_nodigit b hb]
      | false => simpa [scanScore, hc] using ih

/-- Stripping outer whitespace does not change the first integer token. -/
theorem scanScore_pyStrip (l : List Char) : scanScore (pyStrip l) = scanScore l := by
  unfold pyStrip
  set m := l.dropWhile Char.isWhitespace with hm
  have h1 : scanScore l = scanScore m := by
    conv_lhs => rw [← List.takeWhile_append_dropWhile Char.isWhitespace l]
    rw [← hm]
    exact scanScore_append_left m fun c hc =>
      isDigit_false_of_isWhitespace (List.mem_takeWhile_imp hc)
  have h2 : m = (m.reverse.dropWhile Char.isWhitespace).reverse ++
      (m.reverse.takeWhile Char.isWhitespace).reverse := by
    conv_lhs => rw [← List.reverse_reverse m,
      ← List.takeWhile_append_dropWhile Char.isWhitespace m.reverse]
    rw [List.reverse_append]
  rw [h1]
  conv_rhs => rw [h2]
  exact (scanScore_append_right _ fun c hc =>
    isDigit_false_of_isWhitespace (List.mem_takeWhile_imp (List.mem_reverse.mp hc))).symm

/-! ### Claims C3, C4, C5 -/

/-- C3: when any remote call inside descriptor extraction fails (the
description call raises, or the embedding call on the obtained description
raises), `process_image` returns a degraded-success `Descriptor` whose two
embedding fields are each a vector of exactly 768 entries, all zero, never
null (and it does not raise: the function is total). -/
theorem c3_degraded_success_zero_vectors (describe : Except Unit (List Char))
    (embed : List Char → Except Unit (List Rat))
    (h : describe = .error () ∨ ∃ d, describe = .ok d ∧ embed d = .error ()) :
    (process_image describe embed).siglip_embedding = List.replicate 768 (0 : Rat) ∧
    (process_image describe embed).dino_embedding = List.replicate 768 (0 : Rat) ∧
    (process_image describe embed).siglip_embedding.length = 768 ∧
    (process_image describe embed).dino_embedding.length = 768 ∧
    (∀ x ∈ (process_image describe embed).siglip_embedding, x = 0) ∧
    (∀ x ∈ (process_image describe embed).dino_embedding, x = 0) := by
  have hz : process_image describe embed =
      { siglip_embedding := List.replicate 768 0
        dino_embedding := List.replicate 768 0
        description := none } := by
    rcases h with h | ⟨d, hd, he⟩
    · rw [h]; rfl
    · rw [hd]; simp only [process_image, he]
  refine ⟨by rw [hz], by rw [hz], ?_, ?_, ?_, ?_⟩
  · rw [hz]; exact List.length_replicate 768 0
  · rw [hz]; exact List.length_replicate 768 0
  · rw [hz]; intro x hx; exact List.eq_of_mem_replicate hx
  · rw [hz]; intro x hx; exact List.eq_of_mem_replicate hx

/-- C3 witness: a concrete run in which the description call raises. -/
theorem c3_degraded_success_zero_vectors_witness :
    (process_image (.error ()) (fun _ => .ok [])).siglip_embedding =
      List.replicate 768 (0 : Rat) ∧
    (process_image (.error ()) (fun _ => .ok [])).dino_embedding =
      List.replicate 768 (0 : Rat) ∧
    (process_image (.error ()) (fun _ => .ok [])).siglip_embedding.length = 768 ∧
    (process_image (.error ()) (fun _ => .ok [])).dino_embedding.length = 768 ∧
    (∀ x ∈ (process_image (.error ()) (fun _ => .ok [])).siglip_embedding, x = 0) ∧
    (∀ x ∈ (process_image (.error ()) (fun _ => .ok [])).dino_embedding, x = 0) :=
  c3_degraded_success_zero_vectors (.error ()) (fun _ => .ok []) (Or.inl rfl)

/-- C4: the claim that `verify_visual_match` always returns a score in
[0, 100] fails on the code: the first integer token of the response text is
returned unclamped, so the response text `150` yields the score 150.  This
contradicts the docstring of the function itself (a similarity score 0-100). -/
theorem c4_score_not_clamped_to_100 :
    verify_visual_match (.ok ['1', '5', '0']) = 150 ∧
    ¬ verify_visual_match (.ok ['1', '5', '0']) ≤ 100 := by
  constructor <;> decide

/-- C5: `verify_visual_match` extracts the first contiguous decimal-integer
token of the response text and returns its value as the score; a text with
no digit yields 0, and a raised remote call yields 0; the function is total,
so it never throws. -/
theorem c5_first_integer_token (pre : List Char) (d : Char) (ds post : List Char)
    (hpre : ∀ c ∈ pre, c.isDigit = false)
    (hd : d.isDigit = true)
    (hds : ∀ c ∈ ds, c.isDigit = true)
    (hpost : ∀ c, post.head? = some c → c.isDigit = false) :
    verify_visual_match (.ok (pre ++ d :: (ds ++ post))) = natOfDigits (d :: ds) ∧
    (∀ t : List Char, (∀ c ∈ t, c.isDigit = false) →
      verify_visual_match (.ok t) = 0) ∧
    verify_visual_match (.error ()) = 0 := by
  refine ⟨?_, ?_, rfl⟩
  · have h1 : scanScore (pre ++ d :: (ds ++ post)) =
        some (natOfDigits (d :: ds)) := by
      rw [scanScore_append_left _ hpre]
      simp [scanScore, hd, takeWhile_digit_append post hds hpost]
    simp [verify_visual_match, scanScore_pyStrip, h1]
  · intro t ht
    simp [verify_visual_match, scanScore_pyStrip, scanScore_eq_none ht]

/-- C5 witness: the response text `score: 87 / 100` yields 87 (the first
token), a digitless text yields 0, and a raised call yields 0. -/
theorem c5_first_integer_token_witness :
    verify_visual_match
        (.ok (['s', 'c', 'o', 'r', 'e', ':', ' '] ++ '8' :: (['7'] ++ [' ', '/', ' ', '1', '0', '0']))) =
      natOfDigits ('8' :: ['7']) ∧
    (∀ t : List Char, (∀ c ∈ t, c.isDigit = false) →
      verify_visual_match (.ok t) = 0) ∧
    verify_visual_match (.error ()) = 0 :=
  c5_first_integer_token ['s', 'c', 'o', 'r', 'e', ':', ' '] '8' ['7']
    [' ', '/', ' ', '1', '0', '0'] (by decide) (by decide) (by decide) (by decide)

/-! ### Claims C1, C7, C8 -/

/-- C1: tiered decision on the verification score of the top candidate.
When the source image downloaded and retrieval produced a non-empty ranked
list, the score `v = verificationScoreOf env` drives the reply: `v < 65`
replies with the shop msgNotFound and sends no image; `65 ≤ v < 85` sends
the soft-match caveat sentence followed by the formatted found-message with
`v` as the confidence; `v ≥ 85` sends the formatted found-message with no
caveat; in both match tiers the candidate image is sent iff
`shop_config.send_image` is true.  The boundary values 65 and 85 fall into
the soft-match and confident tiers respectively, as the inequalities state. -/
theorem c1_tiered_decision_policy (user_id image_url page_id token : String)
    (shop_config : ShopConfig) (env : SearchEnv)
    (top_match : Candidate) (rest : List Candidate)
    (hdl : env.mainDownload = .ok (some ()))
    (hrpc : env.rpc = .ok (top_match :: rest)) :
    (verificationScoreOf env < 65 →
      handle_image_search user_id image_url page_id shop_config token env =
        Effect.extract :: verifyEffectsOf env ++
          [Effect.sendText user_id (shop_config.msg_not_found.getD rejectDefaultMsg)]) ∧
    (65 ≤ verificationScoreOf env → verificationScoreOf env < 85 →
      handle_image_search user_id image_url page_id shop_config token env =
        Effect.extract :: verifyEffectsOf env ++
          [Effect.sendText user_id softMatchCaveatMsg,
           Effect.sendText user_id
             (formatReply (shop_config.msg_found.getD defaultFoundTemplate)
               top_match (verificationScoreOf env))] ++
          (if shop_config.send_image.getD false then
            [Effect.sendImage user_id top_match.image_url]
          else [])) ∧
    (85 ≤ verificationScoreOf env →
      handle_image_search user_id image_url page_id shop_config token env =
        Effect.extract :: verifyEffectsOf env ++
          [Effect.sendText user_id
             (formatReply (shop_config.msg_found.getD defaultFoundTemplate)
               top_match (verificationScoreOf env))] ++
          (if shop_config.send_image.getD false then
            [Effect.sendImage user_id top_match.image_url]
          else [])) := by
  refine ⟨?_, ?_, ?_⟩
  · intro h
    simp only [handle_image_search, hdl, hrpc]
    rw [if_pos h]
    simp
  · intro h1 h2
    simp only [handle_image_search, hdl, hrpc]
    rw [if_neg (by omega), if_pos h2]
    simp
  · intro h
    simp only [handle_image_search, hdl, hrpc]
    rw [if_neg (by omega), if_neg (by omega)]
    simp

/-- C1 witness: a concrete confident-match run (score 90, send_image on). -/
theorem c1_tiered_decision_policy_witness :
    85 ≤ verificationScoreOf
        ⟨.ok (some ()), .ok [⟨some "Watch", some "10", "img"⟩], .ok true, .ok ['9', '0']⟩ ∧
    handle_image_search "u" "url" "p"
        ⟨some "o", "t", none, none, some true⟩ "tok"
        ⟨.ok (some ()), .ok [⟨some "Watch", some "10", "img"⟩], .ok true, .ok ['9', '0']⟩ =
      Effect.extract :: verifyEffectsOf
          ⟨.ok (some ()), .ok [⟨some "Watch", some "10", "img"⟩], .ok true, .ok ['9', '0']⟩ ++
        [Effect.sendText "u"
          (formatReply ((⟨some "o", "t", none, none, some true⟩ : ShopConfig).msg_found.getD
              defaultFoundTemplate)
            ⟨some "Watch", some "10", "img"⟩
            (verificationScoreOf
              ⟨.ok (some ()), .ok [⟨some "Watch", some "10", "img"⟩], .ok true, .ok ['9', '0']⟩))] ++
        (if (⟨some "o", "t", none, none, some true⟩ : ShopConfig).send_image.getD false then
          [Effect.sendImage "u" (⟨some "Watch", some "10", "img"⟩ : Candidate).image_url]
        else []) :=
  ⟨by decide,
    (c1_tiered_decision_policy "u" "url" "p" "tok"
      ⟨some "o", "t", none, none, some true⟩
      ⟨.ok (some ()), .ok [⟨some "Watch", some "10", "img"⟩], .ok true, .ok ['9', '0']⟩
      ⟨some "Watch", some "10", "img"⟩ [] rfl rfl).2.2 (by decide)⟩

/-- C7: formatting the found-message never throws (the embedded formatter
is total and its exceptions are caught): whenever Python `str.format`
raises on the template — in particular when the template references a
placeholder other than name, price and confidence — the reply falls back to
the minimal found-message with the candidate name substituted.  On the
default template, `{name}`, `{price}` and `{confidence}` are substituted,
for every name, price and confidence value; and a template referencing the
unknown placeholder `item` makes the formatter raise for every candidate. -/
theorem c7_template_format_fallback (tpl : String) (top : Candidate) (v : Nat)
    (h : pyFormat (fieldsFor top v) tpl.data = .error ()) :
    formatReply tpl top v = "Found " ++ pyNameStr top.name ++ "." ∧
    (∀ (n p u : String) (conf : Nat),
      formatReply defaultFoundTemplate ⟨some n, some p, u⟩ conf =
        "Found " ++ n ++ " for " ++ p ++ ". Confidence: " ++ toString conf ++ "%") ∧
    (∀ (top2 : Candidate) (conf : Nat),
      pyFormat (fieldsFor top2 conf) "Buy {item} now".data = .error ()) := by
  refine ⟨?_, ?_, fun _ _ => rfl⟩
  · unfold formatReply
    rw [h]
  · intro n p u conf
    apply String.ext
    rw [show (formatReply defaultFoundTemplate ⟨some n, some p, u⟩ conf).data =
        "Found ".data ++ (n.data ++ (" for ".data ++ (p.data ++
          (". Confidence: ".data ++ ((toString conf).data ++ "%".data))))) from rfl]
    simp [String.data_append, List.append_assoc]

/-- C7 witness: a template with the unknown placeholder `item` falls back
to the minimal found-message. -/
theorem c7_template_format_fallback_witness :
    formatReply "Buy {item} now" ⟨some "Watch", none, "img"⟩ 42 =
      "Found " ++ pyNameStr (some "Watch") ++ "." :=
  (c7_template_format_fallback "Buy {item} now" ⟨some "Watch", none, "img"⟩ 42 rfl).1

/-! ### Claim C8: the send helpers and the orchestrator boundary -/

theorem send_facebook_message_effects (r t : String) (d : Delivery) :
    (send_facebook_message r t d).1 = [Effect.sendText r t] := rfl

theorem send_facebook_message_raised (r t : String) (d : Delivery) :
    (send_facebook_message r t d).2.2 = d.raises := rfl

theorem send_facebook_image_effects (r u : String) (d : Delivery) :
    (send_facebook_image r u d).1 = [Effect.sendImage r u] := rfl

theorem send_facebook_image_raised (r u : String) (d : Delivery) :
    (send_facebook_image r u d).2.2 = d.raises := rfl

/-- When none of its posts raises a transport-level exception, the tiered
reply dispatch performs exactly the sends of the delivery-free model and
completes without an uncaught exception. -/
theorem matchReplySends_no_raise (user_id : String) (shop_config : ShopConfig)
    (top_match : Candidate) (v : Nat) (sd : SendEnv)
    (h2 : sd.rejectD.raises = false) (h3 : sd.caveatD.raises = false)
    (h4 : sd.foundD.raises = false) (h5 : sd.imageD.raises = false) :
    matchReplySends user_id shop_config top_match v sd =
      ((if v < 65 then
          [Effect.sendText user_id (shop_config.msg_not_found.getD rejectDefaultMsg)]
        else
          (if v < 85 then [Effect.sendText user_id softMatchCaveatMsg] else []) ++
            [Effect.sendText user_id
              (formatReply (shop_config.msg_found.getD defaultFoundTemplate) top_match v)] ++
            (if shop_config.send_image.getD false then
              [Effect.sendImage user_id top_match.image_url]
            else [])),
       false) := by
  unfold matchReplySends
  by_cases h65 : v < 65
  · simp [h65, send_facebook_message, h2]
  · by_cases h85 : v < 85 <;>
      simp [h65, h85, send_facebook_message, send_facebook_image, h3, h4, h5] <;>
      split <;> simp [h5]

/-- On runs where no Graph API post raises a transport-level exception, the
delivery-aware orchestrator performs exactly the effects of
`handle_image_search`: the delivery-free model is the projection of this
one onto the collapsed error path. -/
theorem handle_image_search_sends_agrees (user_id image_url page_id token : String)
    (shop_config : ShopConfig) (env : SearchEnv) (sd : SendEnv)
    (h1 : sd.dlFailD.raises = false) (h2 : sd.rejectD.raises = false)
    (h3 : sd.caveatD.raises = false) (h4 : sd.foundD.raises = false)
    (h5 : sd.imageD.raises = false) (h6 : sd.notFoundD.raises = false) :
    handle_image_search_sends user_id image_url page_id shop_config token env sd =
      handle_image_search user_id image_url page_id shop_config token env := by
  rcases env with ⟨md, rpc, cd, cmp⟩
  rcases md with u | omd
  · simp [handle_image_search_sends, handle_image_search, send_facebook_message]
  · rcases omd with _ | u
    · simp [handle_image_search_sends, handle_image_search,
        send_facebook_message, h1]
    · rcases rpc with u | (_ | ⟨top, rest⟩)
      · simp [handle_image_search_sends, handle_image_search, send_facebook_message]
      · simp [handle_image_search_sends, handle_image_search,
          send_facebook_message, h6]
      · simp only [handle_image_search_sends, handle_image_search,
          matchReplySends_no_raise _ _ _ _ _ h2 h3 h4 h5]
        simp

/-- Every run of the tiered reply dispatch attempts at least one outbound
text reply before or at the point of any uncaught exception. -/
theorem matchReplySends_has_text (user_id : String) (shop_config : ShopConfig)
    (top_match : Candidate) (v : Nat) (sd : SendEnv) :
    ∃ t, Effect.sendText user_id t ∈
      (matchReplySends user_id shop_config top_match v sd).1 := by
  by_cases h65 : v < 65
  · exact ⟨shop_config.msg_not_found.getD rejectDefaultMsg,
      by simp [matchReplySends, h65, send_facebook_message]⟩
  · by_cases h85 : v < 85
    · by_cases hcav : sd.caveatD.raises = true
      · exact ⟨softMatchCaveatMsg,
          by simp [matchReplySends, h65, h85, hcav, send_facebook_message]⟩
      · simp only [Bool.not_eq_true] at hcav
        refine ⟨formatReply (shop_config.msg_found.getD defaultFoundTemplate)
          top_match v, ?_⟩
        by_cases hf : sd.foundD.raises = true
        · simp [matchReplySends, h65, h85, hcav, hf, send_facebook_message]
        · simp only [Bool.not_eq_true] at hf
          by_cases hsi : shop_config.send_image.getD false = true
          · simp [matchReplySends, h65, h85, hcav, hf, hsi,
              send_facebook_message, send_facebook_image]
          · simp [matchReplySends, h65, h85, hcav, hf, hsi, send_facebook_message]
    · refine ⟨formatReply (shop_config.msg_found.getD defaultFoundTemplate)
        top_match v, ?_⟩
      by_cases hf : sd.foundD.raises = true
      · simp [matchReplySends, h65, h85, hf, send_facebook_message]
      · simp only [Bool.not_eq_true] at hf
        by_cases hsi : shop_config.send_image.getD false = true
        · simp [matchReplySends, h65, h85, hf, hsi,
            send_facebook_message, send_facebook_image]
        · simp [matchReplySends, h65, h85, hf, hsi, send_facebook_message]

/-- C8 counterexample: the claim that a messaging delivery failure never
escalates to the end user as a second message fails on the code.  The send
helpers catch only an HTTP error status; a transport-level exception from
the candidate-image post (src/app/main.py line 238) propagates to the
outermost `except`, which sends the generic error message after the
found-message has already been sent: the run emits two outbound text
replies, not one. -/
theorem c8_delivery_failure_second_message :
    handle_image_search_sends "u" "url" "p" ⟨some "o", "t", none, none, some true⟩
        "tok"
        ⟨.ok (some ()), .ok [⟨some "Watch", some "10", "img"⟩], .ok true, .ok ['9', '0']⟩
        ⟨.ok, .ok, .ok, .ok, .transportErr, .ok, .ok⟩ =
      [Effect.extract, Effect.verify,
       Effect.sendText "u" "Found Watch for 10. Confidence: 90%",
       Effect.sendImage "u" "img",
       Effect.sendText "u" genericErrorMsg] ∧
    (List.filter isUserText
        (handle_image_search_sends "u" "url" "p" ⟨some "o", "t", none, none, some true⟩
          "tok"
          ⟨.ok (some ()), .ok [⟨some "Watch", some "10", "img"⟩], .ok true, .ok ['9', '0']⟩
          ⟨.ok, .ok, .ok, .ok, .transportErr, .ok, .ok⟩)).length = 2 := by
  constructor <;> decide

/-- C8 (amended): any unhandled exception at a stage of `handle_image_search`
after the credit check — the source download or retrieval RPC raising, and
also a transport-level exception inside an outbound post, which the send
helpers do not catch — is caught at the orchestrator boundary, which then
attempts exactly one generic error reply after the effects already
performed; so every run attempts at least one outbound text reply to the
user.  HTTP-status delivery failures are caught inside the send helpers
(one attempted send, no raise) and never escalate; but a transport-level
failure of a post after a delivered reply does reach the boundary and
produces the generic message as a second outbound reply (third conjunct:
the candidate-image post failing after the found-message). -/
theorem c8_boundary_one_generic_reply (user_id image_url page_id token : String)
    (shop_config : ShopConfig) (env : SearchEnv) (sd : SendEnv) :
    (env.mainDownload = .error () →
      handle_image_search_sends user_id image_url page_id shop_config token env sd =
        [Effect.sendText user_id genericErrorMsg]) ∧
    (env.mainDownload = .ok (some ()) → env.rpc = .error () →
      handle_image_search_sends user_id image_url page_id shop_config token env sd =
        [Effect.extract, Effect.sendText user_id genericErrorMsg]) ∧
    (∀ (top_match : Candidate) (rest : List Candidate),
      env.mainDownload = .ok (some ()) → env.rpc = .ok (top_match :: rest) →
      85 ≤ verificationScoreOf env → sd.foundD = .ok →
      shop_config.send_image.getD false = true → sd.imageD = .transportErr →
      handle_image_search_sends user_id image_url page_id shop_config token env sd =
        Effect.extract :: verifyEffectsOf env ++
          [Effect.sendText user_id
             (formatReply (shop_config.msg_found.getD defaultFoundTemplate)
               top_match (verificationScoreOf env)),
           Effect.sendImage user_id top_match.image_url,
           Effect.sendText user_id genericErrorMsg]) ∧
    (∀ (r t b : String),
      (send_facebook_message r t (.statusErr b)).1 = [Effect.sendText r t] ∧
      (send_facebook_message r t (.statusErr b)).2.2 = false) ∧
    (∃ t, Effect.sendText user_id t ∈
      handle_image_search_sends user_id image_url page_id shop_config token env sd) := by
  refine ⟨fun h => ?_, fun hdl hrpc => ?_, fun top_match rest hdl hrpc h85 hf hsi him => ?_,
    fun r t b => ⟨rfl, rfl⟩, ?_⟩
  · simp [handle_image_search_sends, h, send_facebook_message]
  · simp [handle_image_search_sends, hdl, hrpc, send_facebook_message]
  · have hm : matchReplySends user_id shop_config top_match
        (verificationScoreOf env) sd =
        ([Effect.sendText user_id
            (formatReply (shop_config.msg_found.getD defaultFoundTemplate)
              top_match (verificationScoreOf env)),
          Effect.sendImage user_id top_match.image_url], true) := by
      unfold matchReplySends
      rw [if_neg (by omega)]
      simp [show ¬ verificationScoreOf env < 85 by omega, hf, hsi, him,
        send_facebook_message, send_facebook_image, Delivery.raises]
    simp [handle_image_search_sends, hdl, hrpc, hm, send_facebook_message]
  · rcases env with ⟨md, rpc, cd, cmp⟩
    rcases md with u | omd
    · exact ⟨genericErrorMsg,
        by simp [handle_image_search_sends, send_facebook_message]⟩
    · rcases omd with _ | u
      · refine ⟨downloadFailMsg, ?_⟩
        simp only [handle_image_search_sends, send_facebook_message]
        split <;> simp
      · rcases rpc with u | (_ | ⟨top, rest⟩)
        · exact ⟨genericErrorMsg,
            by simp [handle_image_search_sends, send_facebook_message]⟩
        · refine ⟨shop_config.msg_not_found.getD noMatchDefaultMsg, ?_⟩
          simp only [handle_image_search_sends, send_facebook_message]
          split <;> simp
        · obtain ⟨t, ht⟩ := matchReplySends_has_text user_id shop_config top
            (verificationScoreOf ⟨.ok (some ()), .ok (top :: rest), cd, cmp⟩) sd
          refine ⟨t, ?_⟩
          simp only [handle_image_search_sends, send_facebook_message]
          split <;> simp [List.mem_append, ht]

/-- C8 witness: the amended theorem applied at the concrete run of the
counterexample input shape — the found-message is sent, the image post
raises, the boundary appends the one generic reply. -/
theorem c8_boundary_one_generic_reply_witness :
    handle_image_search_sends "u" "url" "p" ⟨some "o", "t", none, none, some true⟩
        "tok"
        ⟨.ok (some ()), .ok [⟨some "Watch", some "10", "img"⟩], .ok true, .ok ['9', '0']⟩
        ⟨.ok, .ok, .ok, .ok, .transportErr, .ok, .ok⟩ =
      Effect.extract :: verifyEffectsOf
          ⟨.ok (some ()), .ok [⟨some "Watch", some "10", "img"⟩], .ok true, .ok ['9', '0']⟩ ++
        [Effect.sendText "u"
           (formatReply ((⟨some "o", "t", none, none, some true⟩ : ShopConfig).msg_found.getD
               defaultFoundTemplate)
             ⟨some "Watch", some "10", "img"⟩
             (verificationScoreOf
               ⟨.ok (some ()), .ok [⟨some "Watch", some "10", "img"⟩], .ok true, .ok ['9', '0']⟩)),
         Effect.sendImage "u" (⟨some "Watch", some "10", "img"⟩ : Candidate).image_url,
         Effect.sendText "u" genericErrorMsg] :=
  (c8_boundary_one_generic_reply "u" "url" "p" "tok"
      ⟨some "o", "t", none, none, some true⟩
      ⟨.ok (some ()), .ok [⟨some "Watch", some "10", "img"⟩], .ok true, .ok ['9', '0']⟩
      ⟨.ok, .ok, .ok, .ok, .transportErr, .ok, .ok⟩).2.2.1
    ⟨some "Watch", some "10", "img"⟩ [] rfl rfl (by decide) rfl rfl rfl

/-! ### Claims C2, C6, C9, C10 -/

/-- `handle_image_search` never issues a credit write: the decrement is
issued by `process_incoming_message` alone. -/
theorem handle_image_search_no_deduct (user_id image_url page_id token : String)
    (shop_config : ShopConfig) (env : SearchEnv) (o : String) (n : Int) :
    Effect.deductCredit o n ∉
      handle_image_search user_id image_url page_id shop_config token env := by
  rcases env with ⟨md, rpc, cd, cmp⟩
  rcases md with u | omd
  · simp [handle_image_search]
  · rcases omd with _ | u
    · simp [handle_image_search]
    · rcases rpc with u | (_ | ⟨top, rest⟩)
      · simp [handle_image_search]
      · simp [handle_image_search]
      · simp only [handle_image_search, verifyEffectsOf, verificationScoreOf]
        rcases cd with u | b
        · simp
        · cases b
          · simp
          · simp
            split <;> simp

/-- C2: the credit gate of `process_incoming_message`, for an event whose
shop configuration carries a (truthy) owner id.  If the owner row is absent
from the users table, or the read balance is ≤ 0, processing halts silently
before any extraction or verification work runs and no reply is sent (the
effect list is empty).  If the balance is ≥ 1 (and decryption succeeds and
the message carries an image attachment), processing is allowed and the
issued credit write is exactly the read balance minus 1. -/
theorem c2_credit_gate (ev : Event)
    (getShop : String → Option ShopConfig)
    (getUser : String → Except Unit (Option Int))
    (decrypt : String → Except Unit String)
    (env : SearchEnv) (shop_config : ShopConfig) (owner : String)
    (hs : truthyS ev.sender_id = true)
    (hr : truthyS ev.recipient_id = true)
    (hshop : getShop (ev.recipient_id.getD "") = some shop_config)
    (howner : shop_config.owner_id = some owner)
    (hne : owner ≠ "") :
    (getUser owner = .ok none →
      process_incoming_message ev getShop getUser decrypt env = []) ∧
    (∀ c : Int, getUser owner = .ok (some c) → c ≤ 0 →
      process_incoming_message ev getShop getUser decrypt env = []) ∧
    (∀ (c : Int) (token : String) (atts : List Attachment) (att : Attachment),
      getUser owner = .ok (some c) → 1 ≤ c →
      decrypt shop_config.encrypted_access_token = .ok token →
      ev.attachments = some atts → firstImage atts = some att →
      process_incoming_message ev getShop getUser decrypt env =
        Effect.deductCredit owner (c - 1) ::
          handle_image_search (ev.sender_id.getD "") att.payload_url
            (ev.recipient_id.getD "") shop_config token env) := by
  have htr : truthyS (some owner) = true := by
    simp [truthyS, hne]
  refine ⟨?_, ?_, ?_⟩
  · intro hg
    simp [process_incoming_message, hs, hr, hshop, howner, htr, hg]
  · intro c hg hc
    simp [process_incoming_message, hs, hr, hshop, howner, htr, hg, hc]
  · intro c token atts att hg hc hdec hatts hfi
    have hc0 : ¬ c ≤ 0 := by omega
    simp [process_incoming_message, hs, hr, hshop, howner, htr, hg, hc0,
      hdec, hatts, hfi]

/-- C2 witness: balance 5 with an image attachment allows processing and
issues the write 4 = 5 - 1. -/
theorem c2_credit_gate_witness :
    process_incoming_message ⟨some "s", some "r", some [⟨"image", "iu"⟩]⟩
        (fun _ => some ⟨some "o", "t", none, none, none⟩)
        (fun _ => .ok (some 5)) (fun _ => .ok "tok")
        ⟨.ok (some ()), .ok [], .ok true, .ok []⟩ =
      Effect.deductCredit "o" (5 - 1) ::
        handle_image_search "s" "iu" "r" ⟨some "o", "t", none, none, none⟩ "tok"
          ⟨.ok (some ()), .ok [], .ok true, .ok []⟩ :=
  (c2_credit_gate ⟨some "s", some "r", some [⟨"image", "iu"⟩]⟩
      (fun _ => some ⟨some "o", "t", none, none, none⟩)
      (fun _ => .ok (some 5)) (fun _ => .ok "tok")
      ⟨.ok (some ()), .ok [], .ok true, .ok []⟩
      ⟨some "o", "t", none, none, none⟩ "o"
      rfl rfl rfl rfl (by decide)).2.2
    5 "tok" [⟨"image", "iu"⟩] ⟨"image", "iu"⟩ rfl (by decide) rfl rfl rfl

/-- C6: when retrieval returns an empty list, the pipeline replies with the
shop msgNotFound, performs no verification call, and the owner credit
balance is nevertheless decremented by 1 — the effect list is exactly the
credit write, the extraction call and the not-found reply, with no
`Effect.verify`. -/
theorem c6_empty_retrieval_decrements (ev : Event)
    (getShop : String → Option ShopConfig)
    (getUser : String → Except Unit (Option Int))
    (decrypt : String → Except Unit String)
    (env : SearchEnv) (shop_config : ShopConfig) (owner : String)
    (c : Int) (token : String) (atts : List Attachment) (att : Attachment)
    (hs : truthyS ev.sender_id = true)
    (hr : truthyS ev.recipient_id = true)
    (hshop : getShop (ev.recipient_id.getD "") = some shop_config)
    (howner : shop_config.owner_id = some owner)
    (hne : owner ≠ "")
    (hg : getUser owner = .ok (some c)) (hc : 1 ≤ c)
    (hdec : decrypt shop_config.encrypted_access_token = .ok token)
    (hatts : ev.attachments = some atts) (hfi : firstImage atts = some att)
    (hdl : env.mainDownload = .ok (some ()))
    (hrpc : env.rpc = .ok []) :
    process_incoming_message ev getShop getUser decrypt env =
      [Effect.deductCredit owner (c - 1), Effect.extract,
       Effect.sendText (ev.sender_id.getD "")
         (shop_config.msg_not_found.getD noMatchDefaultMsg)] ∧
    Effect.verify ∉ process_incoming_message ev getShop getUser decrypt env := by
  have htr : truthyS (some owner) = true := by
    simp [truthyS, hne]
  have hc0 : ¬ c ≤ 0 := by omega
  have hmain : process_incoming_message ev getShop getUser decrypt env =
      [Effect.deductCredit owner (c - 1), Effect.extract,
       Effect.sendText (ev.sender_id.getD "")
         (shop_config.msg_not_found.getD noMatchDefaultMsg)] := by
    simp [process_incoming_message, hs, hr, hshop, howner, htr, hg, hc0,
      hdec, hatts, hfi, handle_image_search, hdl, hrpc]
  refine ⟨hmain, ?_⟩
  rw [hmain]
  simp

/-- C6 witness: a concrete empty-retrieval run with balance 3. -/
theorem c6_empty_retrieval_decrements_witness :
    process_incoming_message ⟨some "s", some "r", some [⟨"image", "iu"⟩]⟩
        (fun _ => some ⟨some "o", "t", none, some "nope", none⟩)
        (fun _ => .ok (some 3)) (fun _ => .ok "tok")
        ⟨.ok (some ()), .ok [], .ok true, .ok []⟩ =
      [Effect.deductCredit "o" (3 - 1), Effect.extract,
       Effect.sendText "s"
         ((⟨some "o", "t", none, some "nope", none⟩ : ShopConfig).msg_not_found.getD
           noMatchDefaultMsg)] ∧
    Effect.verify ∉ process_incoming_message ⟨some "s", some "r", some [⟨"image", "iu"⟩]⟩
        (fun _ => some ⟨some "o", "t", none, some "nope", none⟩)
        (fun _ => .ok (some 3)) (fun _ => .ok "tok")
        ⟨.ok (some ()), .ok [], .ok true, .ok []⟩ :=
  c6_empty_retrieval_decrements ⟨some "s", some "r", some [⟨"image", "iu"⟩]⟩
    (fun _ => some ⟨some "o", "t", none, some "nope", none⟩)
    (fun _ => .ok (some 3)) (fun _ => .ok "tok")
    ⟨.ok (some ()), .ok [], .ok true, .ok []⟩
    ⟨some "o", "t", none, some "nope", none⟩ "o" 3 "tok"
    [⟨"image", "iu"⟩] ⟨"image", "iu"⟩
    rfl rfl rfl rfl (by decide) rfl (by decide) rfl rfl rfl rfl rfl

/-- C9: for an event whose shop configuration has no (or a falsy) owner id,
`process_incoming_message` performs no credit-balance check (its result does
not depend on the users-table read at all), issues no credit write, and
still proceeds to process the image: the effects are exactly those of
`handle_image_search`. -/
theorem c9_no_owner_unmetered (ev : Event)
    (getShop : String → Option ShopConfig)
    (getUser getUser2 : String → Except Unit (Option Int))
    (decrypt : String → Except Unit String)
    (env : SearchEnv) (shop_config : ShopConfig)
    (token : String) (atts : List Attachment) (att : Attachment)
    (hs : truthyS ev.sender_id = true)
    (hr : truthyS ev.recipient_id = true)
    (hshop : getShop (ev.recipient_id.getD "") = some shop_config)
    (howner : truthyS shop_config.owner_id = false)
    (hdec : decrypt shop_config.encrypted_access_token = .ok token)
    (hatts : ev.attachments = some atts) (hfi : firstImage atts = some att) :
    process_incoming_message ev getShop getUser decrypt env =
      handle_image_search (ev.sender_id.getD "") att.payload_url
        (ev.recipient_id.getD "") shop_config token env ∧
    process_incoming_message ev getShop getUser decrypt env =
      process_incoming_message ev getShop getUser2 decrypt env ∧
    (∀ (o : String) (n : Int),
      Effect.deductCredit o n ∉
        process_incoming_message ev getShop getUser decrypt env) := by
  have hmain : ∀ gu : String → Except Unit (Option Int),
      process_incoming_message ev getShop gu decrypt env =
        handle_image_search (ev.sender_id.getD "") att.payload_url
          (ev.recipient_id.getD "") shop_config token env := by
    intro gu
    simp [process_incoming_message, hs, hr, hshop, howner, hdec, hatts, hfi]
  refine ⟨hmain getUser, by rw [hmain getUser, hmain getUser2], ?_⟩
  intro o n
  rw [hmain getUser]
  exact handle_image_search_no_deduct _ _ _ _ _ _ o n

/-- C9 witness: a shop row without owner id processes the image unmetered;
the two users-table oracles disagree everywhere yet the run is the same. -/
theorem c9_no_owner_unmetered_witness :
    process_incoming_message ⟨some "s", some "r", some [⟨"image", "iu"⟩]⟩
        (fun _ => some ⟨none, "t", none, none, none⟩)
        (fun _ => .ok (some 7)) (fun _ => .ok "tok")
        ⟨.ok (some ()), .ok [], .ok true, .ok []⟩ =
      handle_image_search "s" "iu" "r" ⟨none, "t", none, none, none⟩ "tok"
        ⟨.ok (some ()), .ok [], .ok true, .ok []⟩ ∧
    process_incoming_message ⟨some "s", some "r", some [⟨"image", "iu"⟩]⟩
        (fun _ => some ⟨none, "t", none, none, none⟩)
        (fun _ => .ok (some 7)) (fun _ => .ok "tok")
        ⟨.ok (some ()), .ok [], .ok true, .ok []⟩ =
      process_incoming_message ⟨some "s", some "r", some [⟨"image", "iu"⟩]⟩
        (fun _ => some ⟨none, "t", none, none, none⟩)
        (fun _ => .ok none) (fun _ => .ok "tok")
        ⟨.ok (some ()), .ok [], .ok true, .ok []⟩ ∧
    (∀ (o : String) (n : Int),
      Effect.deductCredit o n ∉
        process_incoming_message ⟨some "s", some "r", some [⟨"image", "iu"⟩]⟩
          (fun _ => some ⟨none, "t", none, none, none⟩)
          (fun _ => .ok (some 7)) (fun _ => .ok "tok")
          ⟨.ok (some ()), .ok [], .ok true, .ok []⟩) :=
  c9_no_owner_unmetered ⟨some "s", some "r", some [⟨"image", "iu"⟩]⟩
    (fun _ => some ⟨none, "t", none, none, none⟩)
    (fun _ => .ok (some 7)) (fun _ => .ok none) (fun _ => .ok "tok")
    ⟨.ok (some ()), .ok [], .ok true, .ok []⟩
    ⟨none, "t", none, none, none⟩ "tok" [⟨"image", "iu"⟩] ⟨"image", "iu"⟩
    rfl rfl rfl rfl rfl rfl rfl

/-- C10: if decrypting the shop access token raises, the run halts
silently: the effect list is empty — no outbound message of any kind and
no credit write, because the decryption step runs before the credit
decrement. -/
theorem c10_decrypt_failure_silent (ev : Event)
    (getShop : String → Option ShopConfig)
    (getUser : String → Except Unit (Option Int))
    (decrypt : String → Except Unit String)
    (env : SearchEnv) (shop_config : ShopConfig)
    (hshop : getShop (ev.recipient_id.getD "") = some shop_config)
    (hdec : decrypt shop_config.encrypted_access_token = .error ()) :
    process_incoming_message ev getShop getUser decrypt env = [] := by
  unfold process_incoming_message
  split
  · rw [hshop]
    simp only
    split
    · rfl
    · rw [hdec]
  · rfl

/-- C10 witness: a concrete run with a raising decrypt, a positive balance
and an image attachment produces no effect at all. -/
theorem c10_decrypt_failure_silent_witness :
    process_incoming_message ⟨some "s", some "r", some [⟨"image", "iu"⟩]⟩
        (fun _ => some ⟨some "o", "t", none, none, none⟩)
        (fun _ => .ok (some 5)) (fun _ => .error ())
        ⟨.ok (some ()), .ok [], .ok true, .ok []⟩ = [] :=
  c10_decrypt_failure_silent ⟨some "s", some "r", some [⟨"image", "iu"⟩]⟩
    (fun _ => some ⟨some "o", "t", none, none, none⟩)
    (fun _ => .ok (some 5)) (fun _ => .error ())
    ⟨.ok (some ()), .ok [], .ok true, .ok []⟩
    ⟨some "o", "t", none, none, none⟩ rfl rfl

end Omni
